import Mathlib

/-!
Verification of the grievance-log front-ends (`app.py`, `app_streamlit.py`).

The development shallowly embeds the data-handling logic of both front-ends:

* timestamps (`datetime`) as a record of numeric fields, compared through an
  order-preserving numeric encoding;
* the timestamp parsers: a model of `datetime.fromisoformat` (naive datetimes,
  zero-padded fields, no UTC-offset suffix — the fragment produced by
  `datetime.isoformat` and exercised by this program) and of
  `datetime.strptime` for the three fixed formats used by `_safe_parse_dt`
  (fields modelled at their canonical zero-padded widths);
* JSON rows as association lists of Python-like scalar values, with Python
  truthiness for the `a or b or ""` field fallbacks;
* `sorted(rows, key=k, reverse=True)` as a stable descending insertion sort
  (stable sorts agree on their output, so insertion sort is a faithful model
  of CPython's stable `sorted`);
* the submit / fetch flows of both front-ends as effect-list producing
  functions parameterised by the network outcome.
-/

/-- A naive `datetime.datetime` value: numeric fields only (the program never
builds or compares timezone-aware datetimes in the modelled fragment). -/
structure DateTime where
  year : Nat
  month : Nat
  day : Nat
  hour : Nat
  minute : Nat
  second : Nat
  microsecond : Nat
deriving DecidableEq, Repr

/-- `datetime.min` = 0001-01-01 00:00:00. -/
def DateTime.min : DateTime := ⟨1, 1, 1, 0, 0, 0, 0⟩

/-- Order-preserving numeric encoding of a datetime.  The bases strictly
dominate each field's range on every value the parsers construct, so `≤` on
the encodings coincides with Python's field-lexicographic datetime order and
equal encodings mean equal datetimes. -/
def DateTime.toNat (dt : DateTime) : Nat :=
  ((((dt.year * 13 + dt.month) * 32 + dt.day) * 25 + dt.hour) * 61 + dt.minute) * 61 * 1000000
    + dt.second * 1000000 + dt.microsecond

/-- Gregorian leap-year test, as in `datetime`. -/
def isLeapYear (y : Nat) : Bool :=
  y % 4 == 0 && (y % 100 != 0 || y % 400 == 0)

/-- Days in a month, as validated by the `datetime` constructor. -/
def daysInMonth (y m : Nat) : Nat :=
  if m = 2 then (if isLeapYear y then 29 else 28)
  else if m = 4 ∨ m = 6 ∨ m = 9 ∨ m = 11 then 30
  else 31

/-- Field ranges accepted by the `datetime` constructor (restricted to the
naive, microsecond-truncated values this program produces). -/
def DateTime.Valid (dt : DateTime) : Prop :=
  1 ≤ dt.year ∧ dt.year ≤ 9999 ∧ 1 ≤ dt.month ∧ dt.month ≤ 12 ∧
    1 ≤ dt.day ∧ dt.day ≤ daysInMonth dt.year dt.month ∧
    dt.hour ≤ 23 ∧ dt.minute ≤ 59 ∧ dt.second ≤ 59 ∧ dt.microsecond ≤ 999999

instance (dt : DateTime) : Decidable dt.Valid := by
  unfold DateTime.Valid; infer_instance

/-- Numeric value of a decimal digit character. -/
def digitVal? (c : Char) : Option Nat :=
  if c.isDigit then some (c.toNat - 48) else none

/-- Parse exactly two decimal digits. -/
def parse2 : List Char → Option (Nat × List Char)
  | a :: b :: rest =>
    match digitVal? a, digitVal? b with
    | some x, some y => some (10 * x + y, rest)
    | _, _ => none
  | _ => none

/-- Parse exactly four decimal digits. -/
def parse4 : List Char → Option (Nat × List Char)
  | a :: b :: c :: d :: rest =>
    match digitVal? a, digitVal? b, digitVal? c, digitVal? d with
    | some x, some y, some z, some w => some (1000 * x + 100 * y + 10 * z + w, rest)
    | _, _, _, _ => none
  | _ => none

/-- Consume one expected literal character. -/
def expectChar (c : Char) : List Char → Option (List Char)
  | x :: rest => if x = c then some rest else none
  | [] => none

/-- Fractional-second digits after the dot: exactly 3 or 6 digits, scaled to
microseconds (`datetime.fromisoformat` accepts exactly those two widths). -/
def parseFracDigits (cs : List Char) : Option (Nat × List Char) :=
  let ds := cs.takeWhile Char.isDigit
  let rest := cs.dropWhile Char.isDigit
  let val := ds.foldl (fun a c => 10 * a + (c.toNat - 48)) 0
  if ds.length = 3 then some (1000 * val, rest)
  else if ds.length = 6 then some (val, rest)
  else none

/-- Seconds (and optional fraction) part of an ISO time: `SS[.fff[fff]]`,
consuming the whole input. -/
def parseSeconds (h mi : Nat) (cs : List Char) : Option (Nat × Nat × Nat × Nat) :=
  match parse2 cs with
  | none => none
  | some (s, rest) =>
    if s ≤ 59 then
      match rest with
      | [] => some (h, mi, s, 0)
      | _ =>
        match expectChar '.' rest with
        | none => none
        | some rest2 =>
          match parseFracDigits rest2 with
          | some (us, []) => some (h, mi, s, us)
          | _ => none
    else none

/-- Minutes part of an ISO time: `MM[:SS[.fff[fff]]]`, consuming the input. -/
def parseMinutes (h : Nat) (cs : List Char) : Option (Nat × Nat × Nat × Nat) :=
  match parse2 cs with
  | none => none
  | some (mi, rest) =>
    if mi ≤ 59 then
      match rest with
      | [] => some (h, mi, 0, 0)
      | _ =>
        match expectChar ':' rest with
        | none => none
        | some rest2 => parseSeconds h mi rest2
    else none

/-- ISO time of day `HH[:MM[:SS[.fff[fff]]]]`, consuming the whole input;
returns `(hour, minute, second, microsecond)`. -/
def parseTime (cs : List Char) : Option (Nat × Nat × Nat × Nat) :=
  match parse2 cs with
  | none => none
  | some (h, rest) =>
    if h ≤ 23 then
      match rest with
      | [] => some (h, 0, 0, 0)
      | _ =>
        match expectChar ':' rest with
        | none => none
        | some rest2 => parseMinutes h rest2
    else none

/-- Model of `datetime.fromisoformat` on character lists:
`YYYY-MM-DD` optionally followed by one arbitrary separator character and an
ISO time of day.  Naive datetimes only: strings carrying a UTC-offset suffix
are outside the modelled fragment (the program never produces them). -/
def fromisoformatChars (cs : List Char) : Option DateTime :=
  match parse4 cs with
  | none => none
  | some (y, cs1) =>
    match expectChar '-' cs1 with
    | none => none
    | some cs2 =>
      match parse2 cs2 with
      | none => none
      | some (mo, cs3) =>
        match expectChar '-' cs3 with
        | none => none
        | some cs4 =>
          match parse2 cs4 with
          | none => none
          | some (d, cs5) =>
            if 1 ≤ y ∧ 1 ≤ mo ∧ mo ≤ 12 ∧ 1 ≤ d ∧ d ≤ daysInMonth y mo then
              match cs5 with
              | [] => some ⟨y, mo, d, 0, 0, 0, 0⟩
              | _ :: timeCs =>
                match parseTime timeCs with
                | none => none
                | some (h, mi, s, us) => some ⟨y, mo, d, h, mi, s, us⟩
            else none

/-- Model of `datetime.fromisoformat` on strings. -/
def fromisoformat (s : String) : Option DateTime :=
  fromisoformatChars s.toList

/-- Model of `datetime.strptime(s, "%Y-%m-%d %H:%M:%S")` (canonical
zero-padded field widths). -/
def strptime_Ymd_HMS (s : String) : Option DateTime :=
  match parse4 s.toList with
  | none => none
  | some (y, cs1) =>
    match expectChar '-' cs1 with
    | none => none
    | some cs2 =>
      match parse2 cs2 with
      | none => none
      | some (mo, cs3) =>
        match expectChar '-' cs3 with
        | none => none
        | some cs4 =>
          match parse2 cs4 with
          | none => none
          | some (d, cs5) =>
            match expectChar ' ' cs5 with
            | none => none
            | some cs6 =>
              match parse2 cs6 with
              | none => none
              | some (h, cs7) =>
                match expectChar ':' cs7 with
                | none => none
                | some cs8 =>
                  match parse2 cs8 with
                  | none => none
                  | some (mi, cs9) =>
                    match expectChar ':' cs9 with
                    | none => none
                    | some cs10 =>
                      match parse2 cs10 with
                      | none => none
                      | some (sec, cs11) =>
                        if cs11 = [] ∧ 1 ≤ y ∧ 1 ≤ mo ∧ mo ≤ 12 ∧ 1 ≤ d ∧
                            d ≤ daysInMonth y mo ∧ h ≤ 23 ∧ mi ≤ 59 ∧ sec ≤ 59 then
                          some ⟨y, mo, d, h, mi, sec, 0⟩
                        else none

/-- Model of `datetime.strptime(s, "%m/%d/%Y %H:%M:%S")`. -/
def strptime_mdY_HMS (s : String) : Option DateTime :=
  match parse2 s.toList with
  | none => none
  | some (mo, cs1) =>
    match expectChar '/' cs1 with
    | none => none
    | some cs2 =>
      match parse2 cs2 with
      | none => none
      | some (d, cs3) =>
        match expectChar '/' cs3 with
        | none => none
        | some cs4 =>
          match parse4 cs4 with
          | none => none
          | some (y, cs5) =>
            match expectChar ' ' cs5 with
            | none => none
            | some cs6 =>
              match parse2 cs6 with
              | none => none
              | some (h, cs7) =>
                match expectChar ':' cs7 with
                | none => none
                | some cs8 =>
                  match parse2 cs8 with
                  | none => none
                  | some (mi, cs9) =>
                    match expectChar ':' cs9 with
                    | none => none
                    | some cs10 =>
                      match parse2 cs10 with
                      | none => none
                      | some (sec, cs11) =>
                        if cs11 = [] ∧ 1 ≤ y ∧ 1 ≤ mo ∧ mo ≤ 12 ∧ 1 ≤ d ∧
                            d ≤ daysInMonth y mo ∧ h ≤ 23 ∧ mi ≤ 59 ∧ sec ≤ 59 then
                          some ⟨y, mo, d, h, mi, sec, 0⟩
                        else none

/-- Model of `datetime.strptime(s, "%d/%m/%Y %H:%M:%S")`. -/
def strptime_dmY_HMS (s : String) : Option DateTime :=
  match parse2 s.toList with
  | none => none
  | some (d, cs1) =>
    match expectChar '/' cs1 with
    | none => none
    | some cs2 =>
      match parse2 cs2 with
      | none => none
      | some (mo, cs3) =>
        match expectChar '/' cs3 with
        | none => none
        | some cs4 =>
          match parse4 cs4 with
          | none => none
          | some (y, cs5) =>
            match expectChar ' ' cs5 with
            | none => none
            | some cs6 =>
              match parse2 cs6 with
              | none => none
              | some (h, cs7) =>
                match expectChar ':' cs7 with
                | none => none
                | some cs8 =>
                  match parse2 cs8 with
                  | none => none
                  | some (mi, cs9) =>
                    match expectChar ':' cs9 with
                    | none => none
                    | some cs10 =>
                      match parse2 cs10 with
                      | none => none
                      | some (sec, cs11) =>
                        if cs11 = [] ∧ 1 ≤ y ∧ 1 ≤ mo ∧ mo ≤ 12 ∧ 1 ≤ d ∧
                            d ≤ daysInMonth y mo ∧ h ≤ 23 ∧ mi ≤ 59 ∧ sec ≤ 59 then
                          some ⟨y, mo, d, h, mi, sec, 0⟩
                        else none

/-- `app.py` lines 33-44: try `datetime.fromisoformat`, then the three
`strptime` formats in order; `None` when everything fails. -/
def _safe_parse_dt (s : String) : Option DateTime :=
  match fromisoformat s with
  | some dt => some dt
  | none =>
    match strptime_Ymd_HMS s with
    | some dt => some dt
    | none =>
      match strptime_mdY_HMS s with
      | some dt => some dt
      | none =>
        match strptime_dmY_HMS s with
        | some dt => some dt
        | none => none

/-- First `some` in a list of parse attempts. -/
def firstSome : List (Option DateTime) → Option DateTime
  | [] => none
  | some x :: _ => some x
  | none :: rest => firstSome rest

/-- The spec's parse policy, stated in its own words: try, in order,
ISO-8601, `YYYY-MM-DD HH:MM:SS`, `MM/DD/YYYY HH:MM:SS`, `DD/MM/YYYY HH:MM:SS`;
the first successful parse wins. -/
def firstSuccessfulParse (s : String) : Option DateTime :=
  firstSome [fromisoformat s, strptime_Ymd_HMS s, strptime_mdY_HMS s, strptime_dmY_HMS s]

/-- Python scalar values as they occur in the decoded JSON rows. -/
inductive PyVal where
  | vnone
  | vbool (b : Bool)
  | vint (n : Int)
  | vstr (s : String)
deriving DecidableEq, Repr

/-- Python truthiness of a scalar. -/
def pyTruthy : PyVal → Bool
  | .vnone => false
  | .vbool b => b
  | .vint n => n != 0
  | .vstr s => s ≠ ""

/-- Python `str()` of a scalar. -/
def pyStr : PyVal → String
  | .vnone => "None"
  | .vbool b => if b then "True" else "False"
  | .vint n => toString n
  | .vstr s => s

/-- A decoded JSON object: association list from field name to value. -/
abbrev Row := List (String × PyVal)

/-- `row.get(k)`: first binding of `k`, defaulting to `None`. -/
def rowGet (r : Row) (k : String) : PyVal :=
  match r.find? (fun p => p.1 == k) with
  | some p => p.2
  | none => .vnone

/-- Python `a or b`: `a` when truthy, else `b`. -/
def pyOr (a b : PyVal) : PyVal :=
  if pyTruthy a then a else b

/-- The field-fallback idiom `row.get(cap) or row.get(low) or ""` used
throughout both front-ends. -/
def getField (r : Row) (capKey lowKey : String) : PyVal :=
  pyOr (rowGet r capKey) (pyOr (rowGet r lowKey) (.vstr ""))

/-- `str(row.get("Timestamp") or row.get("timestamp") or "")`, shared by both
sort keys. -/
def tsStrOf (r : Row) : String :=
  pyStr (getField r "Timestamp" "timestamp")

/-- Python `str.strip()`: drop leading and trailing whitespace. -/
def pythonStrip (s : String) : String :=
  String.mk (((s.toList.dropWhile Char.isWhitespace).reverse.dropWhile
    Char.isWhitespace).reverse)

/-- Decimal digit character. -/
def digitChar (d : Nat) : Char := Char.ofNat (48 + d)

/-- Two zero-padded decimal digits (`%02d` for values below 100). -/
def pad2Chars (n : Nat) : List Char := [digitChar (n / 10), digitChar (n % 10)]

/-- Four zero-padded decimal digits (`%04d` for values below 10000). -/
def pad4Chars (n : Nat) : List Char :=
  [digitChar (n / 1000), digitChar (n / 100 % 10), digitChar (n / 10 % 10), digitChar (n % 10)]

/-- Character list of `datetime.isoformat(timespec="seconds")`:
`YYYY-MM-DDTHH:MM:SS`. -/
def isoSecondsChars (dt : DateTime) : List Char :=
  pad4Chars dt.year ++ '-' :: (pad2Chars dt.month ++ '-' :: (pad2Chars dt.day ++
    'T' :: (pad2Chars dt.hour ++ ':' :: (pad2Chars dt.minute ++ ':' :: pad2Chars dt.second))))

/-- Model of `datetime.isoformat(timespec="seconds")`. -/
def isoformatSeconds (dt : DateTime) : String :=
  String.mk (isoSecondsChars dt)

/-- Stable descending insertion: `x` goes in front of the first element whose
key is strictly smaller, i.e. after every earlier element with a `≥` key. -/
def insertDesc (k : α → Nat) (x : α) : List α → List α
  | [] => [x]
  | y :: ys => if k y ≤ k x then x :: y :: ys else y :: insertDesc k x ys

/-- Stable descending sort by a numeric key: the model of
`sorted(rows, key=k, reverse=True)` (CPython's `sorted` is stable, and a
stable sort's output is determined by the comparator, so any stable sort is a
faithful model). -/
def sortDescBy (k : α → Nat) : List α → List α
  | [] => []
  | x :: xs => insertDesc k x (sortDescBy k xs)

/-- The submission payload built by both `submit_grievance` functions. -/
structure Payload where
  Timestamp : String
  Grievance : String
  Status : String
deriving DecidableEq, Repr

/-- Outcome of one network request, as observed by the caller: success, or an
exception carrying a message (timeout, non-2xx status, transport error). -/
inductive NetResult where
  | ok
  | err (msg : String)
deriving DecidableEq, Repr

/-- A decoded read-response body: a JSON list of objects, or any non-list
value (abstracted by a tag — the code only ever tests `isinstance(data, list)`). -/
inductive Body where
  | jlist (rows : List Row)
  | other (tag : String)
deriving DecidableEq, Repr

/-- Outcome of one read request: decoded body, or an exception message. -/
inductive FetchNet where
  | ok (body : Body)
  | err (msg : String)
deriving DecidableEq, Repr

/-- Observable user-interface / network effects of one interaction. -/
inductive Effect where
  | showError (title msg : String)
  | showWarning (title msg : String)
  | showInfo (title msg : String)
  | httpGet (url : String)
  | httpPost (url : String) (body : Payload)
  | clearInput
  | setSubmitEnabled (b : Bool)
  | setRefreshEnabled (b : Bool)
  | populateTree (rows : List Row)
  | expander (title body : String)
  | triggerFetch
  | rerun
deriving DecidableEq, Repr

/-- The write requests among a list of effects. -/
def postsOf (effs : List Effect) : List (String × Payload) :=
  effs.filterMap (fun e => match e with
    | .httpPost u p => some (u, p)
    | _ => none)

/-- Count of network calls (reads and writes) among a list of effects. -/
def netCallsOf (effs : List Effect) : Nat :=
  (effs.filter (fun e => match e with
    | .httpPost _ _ => true
    | .httpGet _ => true
    | _ => false)).length

/-- Whether any error dialog / error banner is shown. -/
def hasShowError (effs : List Effect) : Bool :=
  effs.any (fun e => match e with
    | .showError _ _ => true
    | _ => false)

namespace App

/-- Desktop UI state relevant to the submit flow (`app.py`). -/
structure AppState where
  apiUrl : String
  inputText : String
  placeholderActive : Bool
  submitEnabled : Bool
deriving DecidableEq, Repr

/-- `_get_input_text` (`app.py` lines 336-341): placeholder text counts as
empty. -/
def getInputText (st : AppState) : String :=
  if st.placeholderActive then "" else st.inputText

/-- `sort_key` inside `fetch_and_display_grievances` (`app.py` lines 237-241):
parsed timestamp, or `datetime.min` when unparseable. -/
def sort_key (r : Row) : DateTime :=
  match _safe_parse_dt (tsStrOf r) with
  | some dt => dt
  | none => DateTime.min

/-- The parse attempt underlying `sort_key`. -/
def parsedTs (r : Row) : Option DateTime :=
  _safe_parse_dt (tsStrOf r)

/-- `sorted(data, key=sort_key, reverse=True)` (`app.py` line 243).  In the
modelled fragment `sort_key` is total and all keys are naive datetimes, so the
`except` fallback to the unsorted list is unreachable. -/
def sortRowsDesc (rows : List Row) : List Row :=
  sortDescBy (fun r => (sort_key r).toNat) rows

/-- Row as displayed by `_populate_tree` (`app.py` lines 254-256): the
grievance and status cell texts. -/
def treeRowValues (r : Row) : String × String :=
  (pythonStrip (pyStr (getField r "Grievance" "grievance")),
   pythonStrip (pyStr (getField r "Status" "status")))

/-- The fetch worker (`app.py` lines 223-248), parameterised by the network
outcome: on failure an error dialog and re-enabled refresh; on success a
non-list body degrades to `[]`, then the sorted rows are displayed. -/
def fetchWorkerEffects (apiUrl : String) (net : FetchNet) : List Effect :=
  match net with
  | .err e =>
    [.httpGet apiUrl,
     .showError "Fetch Failed" ("Couldn't retrieve history.\n\n" ++ e),
     .setRefreshEnabled true]
  | .ok body =>
    let data := match body with
      | .jlist rows => rows
      | .other _ => []
    [.httpGet apiUrl, .populateTree (sortRowsDesc data), .setRefreshEnabled true]

/-- `fetch_and_display_grievances` (`app.py` lines 217-250): no-op without an
API URL, otherwise disable refresh and run the worker. -/
def fetch_and_display_grievances (apiUrl : String) (net : FetchNet) : List Effect :=
  if apiUrl = "" then []
  else .setRefreshEnabled false :: fetchWorkerEffects apiUrl net

/-- `submit_grievance` plus its worker (`app.py` lines 265-299),
parameterised by the POST outcome.  Returns the produced effects and the
resulting UI state. -/
def submit_grievance (st : AppState) (now : DateTime) (res : NetResult) :
    List Effect × AppState :=
  if st.apiUrl = "" then
    ([.showError "Missing API URL"
       "No API URL configured. Please set SHEET_API_URL or config.json."], st)
  else
    let text := pythonStrip (getInputText st)
    if text = "" then
      ([.showWarning "Empty Thought" "Please write something before submitting."], st)
    else
      let payload : Payload := ⟨isoformatSeconds now, text, ""⟩
      match res with
      | .err e =>
        ([.setSubmitEnabled false,
          .httpPost st.apiUrl payload,
          .showError "Submit Failed" ("Couldn't submit your thought.\n\n" ++ e),
          .setSubmitEnabled true],
         { st with submitEnabled := true })
      | .ok =>
        ([.setSubmitEnabled false,
          .httpPost st.apiUrl payload,
          .showInfo "Submitted" "Your thought has been logged.",
          .clearInput,
          .triggerFetch,
          .setSubmitEnabled true],
         { st with inputText := "", placeholderActive := false, submitEnabled := true })

end App

namespace Streamlit

/-- `parse_ts` inside `_sort_rows_desc` (`app_streamlit.py` lines 117-122):
`datetime.fromisoformat` only, `datetime.min` when it raises. -/
def parse_ts (r : Row) : DateTime :=
  match fromisoformat (tsStrOf r) with
  | some dt => dt
  | none => DateTime.min

/-- `_sort_rows_desc` (`app_streamlit.py` lines 116-124). -/
def _sort_rows_desc (rows : List Row) : List Row :=
  sortDescBy (fun r => (parse_ts r).toNat) rows

/-- `fetch_grievances` (`app_streamlit.py` lines 97-103): propagate network
errors, degrade a non-list body to `[]`. -/
def fetch_grievances (net : FetchNet) : Except String (List Row) :=
  match net with
  | .err e => .error e
  | .ok (.jlist rows) => .ok rows
  | .ok (.other _) => .ok []

/-- `submit_grievance` (`app_streamlit.py` lines 106-113): one POST; the
second component is the propagated exception, if any. -/
def submit_grievance (apiUrl text : String) (now : DateTime) (res : NetResult) :
    List Effect × Option String :=
  let payload : Payload := ⟨isoformatSeconds now, text, ""⟩
  match res with
  | .ok => ([.httpPost apiUrl payload], none)
  | .err e => ([.httpPost apiUrl payload], some e)

/-- The submit branch of `main` (`app_streamlit.py` lines 218-229):
validation warning on blank input, otherwise submit and report. -/
def submitClick (apiUrl thought : String) (now : DateTime) (res : NetResult) :
    List Effect :=
  if pythonStrip thought = "" then
    [.showWarning "" "Please write something before submitting."]
  else
    match submit_grievance apiUrl (pythonStrip thought) now res with
    | (effs, some e) => effs ++ [.showError "" ("Couldn't submit your thought.\n\n" ++ e)]
    | (effs, none) => effs ++ [.showInfo "" "Your thought has been logged.", .rerun]

/-- Whether the submission form resets its widgets after the submit button is
pressed: `st.form("submit_form", clear_on_submit=True)` at
`app_streamlit.py` line 215. -/
def clearOnSubmit : Bool := true

/-- Content of the text area on the rerun after a submit press.  Modelled
from streamlit's documented form semantics: with `clear_on_submit=True` the
widgets inside the form are reset after the submit button is pressed,
independently of what the handler body then does. -/
def textAreaAfterSubmit (thought : String) : String :=
  if clearOnSubmit then "" else thought

/-- Timestamp shown for a row (`app_streamlit.py` line 250): capitalized key
only. -/
def webRowTs (r : Row) : String :=
  pythonStrip (pyStr (pyOr (rowGet r "Timestamp") (.vstr "")))

/-- Status shown for a row (`app_streamlit.py` line 251): capitalized key
only. -/
def webRowStatus (r : Row) : String :=
  pythonStrip (pyStr (pyOr (rowGet r "Status") (.vstr "")))

/-- Grievance shown for a row (`app_streamlit.py` line 252): capitalized key
only. -/
def webRowGrievance (r : Row) : String :=
  pythonStrip (pyStr (pyOr (rowGet r "Grievance") (.vstr "")))

/-- Expander title for a row (`app_streamlit.py` lines 254-259). -/
def webRowTitle (r : Row) : String :=
  let bits := (if webRowTs r = "" then [] else [webRowTs r]) ++
    (if webRowStatus r = "" then [] else ["Status: " ++ webRowStatus r])
  if bits.isEmpty then "Submission" else String.intercalate " • " bits

/-- One rendered history row (`app_streamlit.py` lines 249-262). -/
def renderRow (r : Row) : Effect :=
  .expander (webRowTitle r)
    (if webRowGrievance r = "" then "(No text)" else webRowGrievance r)

/-- The history section of `main` (`app_streamlit.py` lines 238-262):
fetch, sort, then render (error banner on fetch failure, info banner when
empty). -/
def historyRender (net : FetchNet) : List Effect :=
  match fetch_grievances net with
  | .error e => [.showError "" ("Couldn't retrieve history.\n\n" ++ e)]
  | .ok rows =>
    let sorted := _sort_rows_desc rows
    if sorted.isEmpty then [.showInfo "" "Nothing to complain about huh, I love u"]
    else sorted.map renderRow

end Streamlit

/-- Formalisation of the amended case-tolerance policy, in its own words: the
capitalized key's value when present and truthy, else the lowercase key's
value when truthy, else the empty string. -/
def caseTolerantLookupSpec (r : Row) (capKey lowKey : String) : PyVal :=
  if pyTruthy (rowGet r capKey) then rowGet r capKey
  else if pyTruthy (rowGet r lowKey) then rowGet r lowKey
  else .vstr ""

/-- Position of the first occurrence of `x` (length of the list when absent). -/
def idxOfRow (x : Row) : List Row → Nat
  | [] => 0
  | r :: rs => if r = x then 0 else idxOfRow x rs + 1

/-- `x` occurs before `y` in `l` (first occurrences; both must occur). -/
def appearsBefore (l : List Row) (x y : Row) : Prop :=
  x ∈ l ∧ y ∈ l ∧ idxOfRow x l < idxOfRow y l

instance (l : List Row) (x y : Row) : Decidable (appearsBefore l x y) := by
  unfold appearsBefore; infer_instance

theorem daysInMonth_le (y m : Nat) : daysInMonth y m ≤ 31 := by
  unfold daysInMonth
  split <;> split <;> omega

theorem mem_insertDesc {α : Type} {k : α → Nat} {x y : α} {l : List α} :
    y ∈ insertDesc k x l ↔ y = x ∨ y ∈ l := by
  induction l with
  | nil => simp [insertDesc]
  | cons z zs ih =>
    unfold insertDesc
    by_cases h : k z ≤ k x
    · rw [if_pos h]
      simp [List.mem_cons]
    · rw [if_neg h]
      simp only [List.mem_cons, ih]
      tauto

theorem pairwise_insertDesc {α : Type} {k : α → Nat} {x : α} {l : List α}
    (hl : l.Pairwise (fun a b => k b ≤ k a)) :
    (insertDesc k x l).Pairwise (fun a b => k b ≤ k a) := by
  induction l with
  | nil => simp [insertDesc]
  | cons y ys ih =>
    rcases List.pairwise_cons.mp hl with ⟨hy, hys⟩
    unfold insertDesc
    by_cases h : k y ≤ k x
    · rw [if_pos h]
      refine List.pairwise_cons.mpr ⟨?_, hl⟩
      intro z hz
      rcases List.mem_cons.mp hz with rfl | hz'
      · exact h
      · exact le_trans (hy z hz') h
    · rw [if_neg h]
      refine List.pairwise_cons.mpr ⟨?_, ih hys⟩
      intro z hz
      rcases mem_insertDesc.mp hz with rfl | hz'
      · omega
      · exact hy z hz'

theorem pairwise_sortDescBy {α : Type} (k : α → Nat) (l : List α) :
    (sortDescBy k l).Pairwise (fun a b => k b ≤ k a) := by
  induction l with
  | nil => simp [sortDescBy]
  | cons x xs ih => exact pairwise_insertDesc ih

theorem mem_sortDescBy {α : Type} {k : α → Nat} {l : List α} {y : α} :
    y ∈ sortDescBy k l ↔ y ∈ l := by
  induction l with
  | nil => simp [sortDescBy]
  | cons x xs ih => simp [sortDescBy, mem_insertDesc, ih]

theorem sortDescBy_get_le {α : Type} (k : α → Nat) (l : List α)
    (i j : Fin (sortDescBy k l).length) (hij : i < j) :
    k ((sortDescBy k l).get j) ≤ k ((sortDescBy k l).get i) :=
  List.pairwise_iff_get.mp (pairwise_sortDescBy k l) i j hij

theorem insertDesc_congr {α : Type} {k1 k2 : α → Nat} {x : α} {l : List α}
    (hx : k1 x = k2 x) (hl : ∀ y ∈ l, k1 y = k2 y) :
    insertDesc k1 x l = insertDesc k2 x l := by
  induction l with
  | nil => rfl
  | cons y ys ih =>
    have hy := hl y (List.mem_cons_self y ys)
    unfold insertDesc
    rw [hy, hx]
    by_cases h : k2 y ≤ k2 x
    · simp [h]
    · simp only [if_neg h]
      rw [ih (fun z hz => hl z (List.mem_cons_of_mem _ hz))]

theorem sortDescBy_congr {α : Type} {k1 k2 : α → Nat} {l : List α}
    (hl : ∀ y ∈ l, k1 y = k2 y) : sortDescBy k1 l = sortDescBy k2 l := by
  induction l with
  | nil => rfl
  | cons x xs ih =>
    unfold sortDescBy
    have hxs : ∀ y ∈ xs, k1 y = k2 y := fun y hy => hl y (List.mem_cons_of_mem _ hy)
    rw [ih hxs]
    exact insertDesc_congr (hl x (List.mem_cons_self x xs))
      (fun y hy => hxs y (mem_sortDescBy.mp hy))

theorem _safe_parse_dt_of_iso {s : String} {dt : DateTime}
    (h : fromisoformat s = some dt) : _safe_parse_dt s = some dt := by
  unfold _safe_parse_dt
  rw [h]

theorem iso_none_of_safe_none {s : String} (h : _safe_parse_dt s = none) :
    fromisoformat s = none := by
  unfold _safe_parse_dt at h
  cases hi : fromisoformat s with
  | none => rfl
  | some dt => rw [hi] at h; simp at h

theorem digitVal_digitChar (d : Nat) (h : d < 10) : digitVal? (digitChar d) = some d := by
  interval_cases d <;> decide

theorem parse2_pad2 (n : Nat) (h : n < 100) (rest : List Char) :
    parse2 (pad2Chars n ++ rest) = some (n, rest) := by
  have h1 : n / 10 < 10 := by omega
  have h2 : n % 10 < 10 := by omega
  simp [pad2Chars, parse2, digitVal_digitChar _ h1, digitVal_digitChar _ h2]
  omega

theorem parse2_pad2_nil (n : Nat) (h : n < 100) : parse2 (pad2Chars n) = some (n, []) := by
  have := parse2_pad2 n h []
  rwa [List.append_nil] at this

theorem parse4_pad4 (n : Nat) (h : n < 10000) (rest : List Char) :
    parse4 (pad4Chars n ++ rest) = some (n, rest) := by
  have h1 : n / 1000 < 10 := by omega
  have h2 : n / 100 % 10 < 10 := by omega
  have h3 : n / 10 % 10 < 10 := by omega
  have h4 : n % 10 < 10 := by omega
  simp [pad4Chars, parse4, digitVal_digitChar _ h1, digitVal_digitChar _ h2,
    digitVal_digitChar _ h3, digitVal_digitChar _ h4]
  omega

theorem expectChar_cons_self (c : Char) (rest : List Char) :
    expectChar c (c :: rest) = some rest := by
  simp [expectChar]

theorem parseSeconds_pad (h mi s : Nat) (hs : s ≤ 59) :
    parseSeconds h mi (pad2Chars s) = some (h, mi, s, 0) := by
  unfold parseSeconds
  rw [parse2_pad2_nil s (by omega)]
  simp [hs]

theorem parseMinutes_pad (h mi s : Nat) (hmi : mi ≤ 59) (hs : s ≤ 59) :
    parseMinutes h (pad2Chars mi ++ ':' :: pad2Chars s) = some (h, mi, s, 0) := by
  unfold parseMinutes
  rw [parse2_pad2 mi (by omega)]
  simp [hmi, expectChar_cons_self, parseSeconds_pad h mi s hs]

theorem parseTime_pad (h mi s : Nat) (hh : h ≤ 23) (hmi : mi ≤ 59) (hs : s ≤ 59) :
    parseTime (pad2Chars h ++ ':' :: (pad2Chars mi ++ ':' :: pad2Chars s)) =
      some (h, mi, s, 0) := by
  unfold parseTime
  rw [parse2_pad2 h (by omega)]
  simp [hh, expectChar_cons_self, parseMinutes_pad h mi s hmi hs]

theorem fromisoformat_isoformatSeconds (dt : DateTime) (hv : dt.Valid) :
    fromisoformat (isoformatSeconds dt) =
      some ⟨dt.year, dt.month, dt.day, dt.hour, dt.minute, dt.second, 0⟩ := by
  obtain ⟨h1, h2, h3, h4, h5, h6, h7, h8, h9, _⟩ := hv
  show fromisoformatChars (String.mk (isoSecondsChars dt)).toList = _
  have hlist : (String.mk (isoSecondsChars dt)).toList = isoSecondsChars dt := rfl
  rw [hlist]
  unfold isoSecondsChars fromisoformatChars
  rw [parse4_pad4 dt.year (by omega)]
  simp only [expectChar_cons_self]
  rw [parse2_pad2 dt.month (by omega)]
  simp only [expectChar_cons_self]
  rw [parse2_pad2 dt.day (by have := daysInMonth_le dt.year dt.month; omega)]
  simp only []
  rw [if_pos ⟨h1, h3, h4, h5, h6⟩]
  simp only [parseTime_pad dt.hour dt.minute dt.second h7 h8 h9]

theorem sortRowsDesc_key_le (l : List Row) (i j : Fin (App.sortRowsDesc l).length)
    (hij : i < j) :
    (App.sort_key ((App.sortRowsDesc l).get j)).toNat ≤
      (App.sort_key ((App.sortRowsDesc l).get i)).toNat :=
  sortDescBy_get_le (fun r => (App.sort_key r).toNat) l i j hij

theorem sort_rows_desc_key_le (l : List Row)
    (i j : Fin (Streamlit._sort_rows_desc l).length) (hij : i < j) :
    (Streamlit.parse_ts ((Streamlit._sort_rows_desc l).get j)).toNat ≤
      (Streamlit.parse_ts ((Streamlit._sort_rows_desc l).get i)).toNat :=
  sortDescBy_get_le (fun r => (Streamlit.parse_ts r).toNat) l i j hij

theorem App.sort_key_eq_of_parsed {r : Row} {dt : DateTime}
    (h : App.parsedTs r = some dt) : App.sort_key r = dt := by
  unfold App.parsedTs at h
  unfold App.sort_key
  rw [h]

theorem App.sort_key_eq_min_of_none {r : Row} (h : App.parsedTs r = none) :
    App.sort_key r = DateTime.min := by
  unfold App.parsedTs at h
  unfold App.sort_key
  rw [h]

theorem Streamlit.parse_ts_eq_of_iso {r : Row} {dt : DateTime}
    (h : fromisoformat (tsStrOf r) = some dt) : Streamlit.parse_ts r = dt := by
  unfold Streamlit.parse_ts
  rw [h]

theorem Streamlit.parse_ts_eq_min_of_none {r : Row}
    (h : fromisoformat (tsStrOf r) = none) : Streamlit.parse_ts r = DateTime.min := by
  unfold Streamlit.parse_ts
  rw [h]

/-- C1 counterexample: with two distinct records carrying the same parseable
timestamp, the stable descending sort keeps their original order, so taking
`a` to be the later record and `b` the earlier one we get
`parsed(a) >= parsed(b)` while `a` does not appear before `b` — the claimed
biconditional fails on ties. -/
theorem claim_C1_counterexample :
    App.parsedTs [("Timestamp", PyVal.vstr "2024-01-01T00:00:00"),
        ("Grievance", PyVal.vstr "a")] =
      App.parsedTs [("Timestamp", PyVal.vstr "2024-01-01T00:00:00"),
        ("Grievance", PyVal.vstr "b")] ∧
    (App.parsedTs [("Timestamp", PyVal.vstr "2024-01-01T00:00:00"),
        ("Grievance", PyVal.vstr "a")]).isSome ∧
    appearsBefore (App.sortRowsDesc
        [[("Timestamp", PyVal.vstr "2024-01-01T00:00:00"), ("Grievance", PyVal.vstr "a")],
         [("Timestamp", PyVal.vstr "2024-01-01T00:00:00"), ("Grievance", PyVal.vstr "b")]])
      [("Timestamp", PyVal.vstr "2024-01-01T00:00:00"), ("Grievance", PyVal.vstr "a")]
      [("Timestamp", PyVal.vstr "2024-01-01T00:00:00"), ("Grievance", PyVal.vstr "b")] ∧
    ¬ appearsBefore (App.sortRowsDesc
        [[("Timestamp", PyVal.vstr "2024-01-01T00:00:00"), ("Grievance", PyVal.vstr "a")],
         [("Timestamp", PyVal.vstr "2024-01-01T00:00:00"), ("Grievance", PyVal.vstr "b")]])
      [("Timestamp", PyVal.vstr "2024-01-01T00:00:00"), ("Grievance", PyVal.vstr "b")]
      [("Timestamp", PyVal.vstr "2024-01-01T00:00:00"), ("Grievance", PyVal.vstr "a")] := by
  decide

/-- C1 (amended): in both front-ends the displayed history is weakly
descending in parsed timestamp: whenever a record with a parseable timestamp
appears before another record with a parseable timestamp, the earlier one's
parsed timestamp is `>=` the later one's (the original biconditional holds
except on ties, where the stable sort keeps input order). -/
theorem claim_C1_amended :
    (∀ (l : List Row) (i j : Fin (App.sortRowsDesc l).length), i < j →
      ∀ da db : DateTime,
        App.parsedTs ((App.sortRowsDesc l).get i) = some da →
        App.parsedTs ((App.sortRowsDesc l).get j) = some db →
        db.toNat ≤ da.toNat) ∧
    (∀ (l : List Row) (i j : Fin (Streamlit._sort_rows_desc l).length), i < j →
      ∀ da db : DateTime,
        fromisoformat (tsStrOf ((Streamlit._sort_rows_desc l).get i)) = some da →
        fromisoformat (tsStrOf ((Streamlit._sort_rows_desc l).get j)) = some db →
        db.toNat ≤ da.toNat) := by
  constructor
  · intro l i j hij da db hda hdb
    have h := sortRowsDesc_key_le l i j hij
    rw [App.sort_key_eq_of_parsed hda, App.sort_key_eq_of_parsed hdb] at h
    exact h
  · intro l i j hij da db hda hdb
    have h := sort_rows_desc_key_le l i j hij
    rw [Streamlit.parse_ts_eq_of_iso hda, Streamlit.parse_ts_eq_of_iso hdb] at h
    exact h

theorem claim_C1_witness :
    (DateTime.toNat ⟨2024, 1, 1, 10, 0, 0, 0⟩ ≤ DateTime.toNat ⟨2024, 1, 2, 10, 0, 0, 0⟩) ∧
    (DateTime.toNat ⟨2024, 1, 1, 10, 0, 0, 0⟩ ≤ DateTime.toNat ⟨2024, 1, 2, 10, 0, 0, 0⟩) :=
  ⟨claim_C1_amended.1
      [[("Timestamp", PyVal.vstr "2024-01-01T10:00:00")],
       [("Timestamp", PyVal.vstr "2024-01-02T10:00:00")]]
      ⟨0, by decide⟩ ⟨1, by decide⟩ (by decide) _ _ (by decide) (by decide),
   claim_C1_amended.2
      [[("Timestamp", PyVal.vstr "2024-01-01T10:00:00")],
       [("Timestamp", PyVal.vstr "2024-01-02T10:00:00")]]
      ⟨0, by decide⟩ ⟨1, by decide⟩ (by decide) _ _ (by decide) (by decide)⟩

/-- C2 counterexample: `"01/02/2024 10:00:00"` parses only through the extra
`strptime` formats of the desktop parser, so the two front-ends order the same
two records differently. -/
theorem claim_C2_counterexample :
    Streamlit._sort_rows_desc
        [[("Timestamp", PyVal.vstr "2020-01-01T00:00:00")],
         [("Timestamp", PyVal.vstr "01/02/2024 10:00:00")]] ≠
      App.sortRowsDesc
        [[("Timestamp", PyVal.vstr "2020-01-01T00:00:00")],
         [("Timestamp", PyVal.vstr "01/02/2024 10:00:00")]] := by
  decide

/-- C2 (amended): both front-ends sort stably and descendingly by their
respective parsed timestamps, but the web parser tries only ISO-8601.  The
two sorts coincide exactly on record sets in which every timestamp is either
ISO-parseable or unparseable by the desktop parser as well; they can differ
when a timestamp parses only through the desktop parser's extra `strptime`
formats. -/
theorem claim_C2_amended (l : List Row)
    (h : ∀ r ∈ l, (fromisoformat (tsStrOf r)).isSome ∨ App.parsedTs r = none) :
    Streamlit._sort_rows_desc l = App.sortRowsDesc l := by
  unfold Streamlit._sort_rows_desc App.sortRowsDesc
  apply sortDescBy_congr
  intro r hr
  rcases h r hr with hiso | hnone
  · obtain ⟨dt, hdt⟩ := Option.isSome_iff_exists.mp hiso
    rw [Streamlit.parse_ts_eq_of_iso hdt,
      App.sort_key_eq_of_parsed (_safe_parse_dt_of_iso hdt)]
  · rw [Streamlit.parse_ts_eq_min_of_none (iso_none_of_safe_none hnone),
      App.sort_key_eq_min_of_none hnone]

theorem claim_C2_witness :
    Streamlit._sort_rows_desc
        [[("Timestamp", PyVal.vstr "2024-01-02T10:00:00")],
         [("Timestamp", PyVal.vstr "zzz")],
         [("Timestamp", PyVal.vstr "2024-01-03T10:00:00")]] =
      App.sortRowsDesc
        [[("Timestamp", PyVal.vstr "2024-01-02T10:00:00")],
         [("Timestamp", PyVal.vstr "zzz")],
         [("Timestamp", PyVal.vstr "2024-01-03T10:00:00")]] :=
  claim_C2_amended _ (by decide)

/-- C3 counterexample: an unparseable timestamp sorts with key `datetime.min`,
so it ties with a record whose timestamp parses to exactly `datetime.min`
(`"0001-01-01 00:00:00"`); the stable sort then keeps the unparseable record
first, in front of a parseable one. -/
theorem claim_C3_counterexample :
    App.parsedTs [("Timestamp", PyVal.vstr "zzz")] = none ∧
    App.parsedTs [("Timestamp", PyVal.vstr "0001-01-01 00:00:00")] = some DateTime.min ∧
    appearsBefore
      (App.sortRowsDesc [[("Timestamp", PyVal.vstr "zzz")],
        [("Timestamp", PyVal.vstr "0001-01-01 00:00:00")]])
      [("Timestamp", PyVal.vstr "zzz")]
      [("Timestamp", PyVal.vstr "0001-01-01 00:00:00")] := by
  decide

/-- C3 (amended): in both front-ends a record with an unparseable timestamp
appears after every record whose parsed timestamp is strictly greater than
`datetime.min`; records parsing to exactly `datetime.min` tie with the
unparseable ones, and the stable sort keeps their original order. -/
theorem claim_C3_amended :
    (∀ (l : List Row) (i j : Fin (App.sortRowsDesc l).length),
      App.parsedTs ((App.sortRowsDesc l).get i) = none →
      ∀ db : DateTime,
        App.parsedTs ((App.sortRowsDesc l).get j) = some db →
        DateTime.min.toNat < db.toNat → j < i) ∧
    (∀ (l : List Row) (i j : Fin (Streamlit._sort_rows_desc l).length),
      fromisoformat (tsStrOf ((Streamlit._sort_rows_desc l).get i)) = none →
      ∀ db : DateTime,
        fromisoformat (tsStrOf ((Streamlit._sort_rows_desc l).get j)) = some db →
        DateTime.min.toNat < db.toNat → j < i) := by
  constructor
  · intro l i j hi db hj hdb
    rcases lt_trichotomy j i with hlt | heq | hgt
    · exact hlt
    · exfalso
      rw [heq, hi] at hj
      exact Option.noConfusion hj
    · exfalso
      have h := sortRowsDesc_key_le l i j hgt
      rw [App.sort_key_eq_min_of_none hi, App.sort_key_eq_of_parsed hj] at h
      omega
  · intro l i j hi db hj hdb
    rcases lt_trichotomy j i with hlt | heq | hgt
    · exact hlt
    · exfalso
      rw [heq, hi] at hj
      exact Option.noConfusion hj
    · exfalso
      have h := sort_rows_desc_key_le l i j hgt
      rw [Streamlit.parse_ts_eq_min_of_none hi, Streamlit.parse_ts_eq_of_iso hj] at h
      omega

theorem claim_C3_witness :
    ((⟨0, by decide⟩ : Fin (App.sortRowsDesc
        [[("Timestamp", PyVal.vstr "zzz")],
         [("Timestamp", PyVal.vstr "2024-06-01T00:00:00")]]).length) <
      ⟨1, by decide⟩) ∧
    ((⟨0, by decide⟩ : Fin (Streamlit._sort_rows_desc
        [[("Timestamp", PyVal.vstr "zzz")],
         [("Timestamp", PyVal.vstr "2024-06-01T00:00:00")]]).length) <
      ⟨1, by decide⟩) :=
  ⟨claim_C3_amended.1
      [[("Timestamp", PyVal.vstr "zzz")], [("Timestamp", PyVal.vstr "2024-06-01T00:00:00")]]
      ⟨1, by decide⟩ ⟨0, by decide⟩ (by decide) ⟨2024, 6, 1, 0, 0, 0, 0⟩ (by decide) (by decide),
   claim_C3_amended.2
      [[("Timestamp", PyVal.vstr "zzz")], [("Timestamp", PyVal.vstr "2024-06-01T00:00:00")]]
      ⟨1, by decide⟩ ⟨0, by decide⟩ (by decide) ⟨2024, 6, 1, 0, 0, 0, 0⟩ (by decide) (by decide)⟩

/-- C4 counterexample: for `"01/02/2024 10:00:00"` the first successful parse
among the four listed formats is `MM/DD/YYYY HH:MM:SS` (January 2, 2024), and
the desktop sort key uses it — but the web front-end's sort key for the same
record is `datetime.min`, not the result of that parse. -/
theorem claim_C4_counterexample :
    _safe_parse_dt "01/02/2024 10:00:00" = some ⟨2024, 1, 2, 10, 0, 0, 0⟩ ∧
    Streamlit.parse_ts [("Timestamp", PyVal.vstr "01/02/2024 10:00:00")] = DateTime.min ∧
    DateTime.min ≠ ⟨2024, 1, 2, 10, 0, 0, 0⟩ := by
  decide

/-- C4 (amended): the desktop parser `_safe_parse_dt` tries exactly ISO-8601,
`YYYY-MM-DD HH:MM:SS`, `MM/DD/YYYY HH:MM:SS`, `DD/MM/YYYY HH:MM:SS`, in that
order, the first success being the sort key; the web front-end's sort key
instead uses only ISO-8601, falling back to `datetime.min` for everything
else. -/
theorem claim_C4_amended :
    (∀ s : String, _safe_parse_dt s = firstSuccessfulParse s) ∧
    (∀ r : Row, Streamlit.parse_ts r = (fromisoformat (tsStrOf r)).getD DateTime.min) := by
  constructor
  · intro s
    unfold _safe_parse_dt firstSuccessfulParse
    cases fromisoformat s <;> cases strptime_Ymd_HMS s <;> cases strptime_mdY_HMS s <;>
      cases strptime_dmY_HMS s <;> simp [firstSome]
  · intro r
    unfold Streamlit.parse_ts
    cases fromisoformat (tsStrOf r) <;> simp

/-- C5 counterexample: in the web front-end the submission form is declared
with `clear_on_submit=True`, so after a failed submit of `"hello"` the text
area is empty — the submitted text is not left in the input surface. -/
theorem claim_C5_counterexample :
    hasShowError (Streamlit.submitClick "u" "hello" ⟨2024, 1, 1, 12, 0, 0, 0⟩
      (.err "timeout")) = true ∧
    Streamlit.textAreaAfterSubmit "hello" = "" ∧
    Streamlit.textAreaAfterSubmit "hello" ≠ "hello" := by
  decide

/-- C5 (amended): after a failed write an error is shown and an identical
resubmit is possible in both front-ends (the desktop submit button is
re-enabled, and the next submit issues the same write request); the desktop
front-end leaves the input text unmodified, but the web front-end's form
(`clear_on_submit=True`) resets the text area even on failure. -/
theorem claim_C5_amended :
    (∀ (st : App.AppState) (now now2 : DateTime) (e : String),
      st.apiUrl ≠ "" → pythonStrip (App.getInputText st) ≠ "" →
      (App.submit_grievance st now (.err e)).2.inputText = st.inputText ∧
      (App.submit_grievance st now (.err e)).2.submitEnabled = true ∧
      hasShowError (App.submit_grievance st now (.err e)).1 = true ∧
      postsOf (App.submit_grievance (App.submit_grievance st now (.err e)).2 now2 .ok).1 =
        [(st.apiUrl, ⟨isoformatSeconds now2, pythonStrip (App.getInputText st), ""⟩)]) ∧
    (∀ (apiUrl thought : String) (now now2 : DateTime) (e : String),
      pythonStrip thought ≠ "" →
      hasShowError (Streamlit.submitClick apiUrl thought now (.err e)) = true ∧
      Streamlit.textAreaAfterSubmit thought = "" ∧
      postsOf (Streamlit.submitClick apiUrl thought now2 .ok) =
        [(apiUrl, ⟨isoformatSeconds now2, pythonStrip thought, ""⟩)]) := by
  constructor
  · intro st now now2 e h1 h2
    have h2' := h2
    simp only [App.getInputText] at h2'
    refine ⟨?_, ?_, ?_, ?_⟩ <;>
      simp [App.submit_grievance, App.getInputText, h1, h2', hasShowError, postsOf]
  · intro apiUrl thought now now2 e h
    simp [Streamlit.submitClick, Streamlit.submit_grievance, Streamlit.textAreaAfterSubmit,
      Streamlit.clearOnSubmit, h, hasShowError, postsOf]

theorem claim_C5_witness :
    (App.submit_grievance ⟨"u", "hello", false, true⟩ ⟨2024, 1, 1, 12, 0, 0, 0⟩
        (.err "timeout")).2.inputText = "hello" ∧
    Streamlit.textAreaAfterSubmit "hi" = "" :=
  ⟨((claim_C5_amended.1 ⟨"u", "hello", false, true⟩ ⟨2024, 1, 1, 12, 0, 0, 0⟩
      ⟨2024, 1, 1, 12, 0, 5, 0⟩ "timeout" (by decide) (by decide)).1),
   (claim_C5_amended.2 "u" "hi" ⟨2024, 1, 1, 12, 0, 0, 0⟩ ⟨2024, 1, 1, 12, 0, 5, 0⟩
      "timeout" (by decide)).2.1⟩

/-- C6: blank or whitespace-only input is rejected locally in both
front-ends: the only effect is a validation warning, and no network call is
issued (in the desktop shell this presupposes a configured API URL — without
one even non-blank submits are stopped earlier with a configuration error). -/
theorem claim_C6 :
    (∀ (st : App.AppState) (now : DateTime) (res : NetResult),
      st.apiUrl ≠ "" → pythonStrip (App.getInputText st) = "" →
      (App.submit_grievance st now res).1 =
        [.showWarning "Empty Thought" "Please write something before submitting."] ∧
      netCallsOf (App.submit_grievance st now res).1 = 0) ∧
    (∀ (apiUrl thought : String) (now : DateTime) (res : NetResult),
      pythonStrip thought = "" →
      Streamlit.submitClick apiUrl thought now res =
        [.showWarning "" "Please write something before submitting."] ∧
      netCallsOf (Streamlit.submitClick apiUrl thought now res) = 0) := by
  constructor
  · intro st now res h1 h2
    constructor
    · simp [App.submit_grievance, h1, h2]
    · simp [App.submit_grievance, h1, h2, netCallsOf]
  · intro apiUrl thought now res h
    constructor
    · simp [Streamlit.submitClick, h]
    · simp [Streamlit.submitClick, h, netCallsOf]

theorem claim_C6_witness :
    (App.submit_grievance ⟨"u", "   ", false, true⟩ ⟨2024, 1, 1, 12, 0, 0, 0⟩ .ok).1 =
      [.showWarning "Empty Thought" "Please write something before submitting."] ∧
    Streamlit.submitClick "u" "   " ⟨2024, 1, 1, 12, 0, 0, 0⟩ .ok =
      [.showWarning "" "Please write something before submitting."] :=
  ⟨(claim_C6.1 ⟨"u", "   ", false, true⟩ ⟨2024, 1, 1, 12, 0, 0, 0⟩ .ok
      (by decide) (by decide)).1,
   (claim_C6.2 "u" "   " ⟨2024, 1, 1, 12, 0, 0, 0⟩ .ok (by decide)).1⟩

/-- C7: a non-blank submit issues exactly one write request, whose body has
`Grievance` equal to the stripped input text, `Status` equal to `""`, and
`Timestamp` equal to `now.isoformat(timespec="seconds")` — a string that
parses back under ISO-8601 to the current time truncated to seconds. -/
theorem claim_C7 :
    (∀ (st : App.AppState) (now : DateTime) (res : NetResult),
      st.apiUrl ≠ "" → pythonStrip (App.getInputText st) ≠ "" →
      postsOf (App.submit_grievance st now res).1 =
        [(st.apiUrl, ⟨isoformatSeconds now, pythonStrip (App.getInputText st), ""⟩)]) ∧
    (∀ (apiUrl thought : String) (now : DateTime) (res : NetResult),
      pythonStrip thought ≠ "" →
      postsOf (Streamlit.submitClick apiUrl thought now res) =
        [(apiUrl, ⟨isoformatSeconds now, pythonStrip thought, ""⟩)]) ∧
    (∀ now : DateTime, now.Valid →
      fromisoformat (isoformatSeconds now) =
        some ⟨now.year, now.month, now.day, now.hour, now.minute, now.second, 0⟩) := by
  refine ⟨?_, ?_, fromisoformat_isoformatSeconds⟩
  · intro st now res h1 h2
    cases res <;> simp [App.submit_grievance, h1, h2, postsOf]
  · intro apiUrl thought now res h
    cases res <;>
      simp [Streamlit.submitClick, Streamlit.submit_grievance, h, postsOf]

theorem claim_C7_witness :
    postsOf (App.submit_grievance ⟨"u", " hello ", false, true⟩
        ⟨2024, 1, 2, 10, 20, 30, 0⟩ .ok).1 =
      [("u", ⟨"2024-01-02T10:20:30", "hello", ""⟩)] ∧
    postsOf (Streamlit.submitClick "u" " hello " ⟨2024, 1, 2, 10, 20, 30, 0⟩ .ok) =
      [("u", ⟨"2024-01-02T10:20:30", "hello", ""⟩)] ∧
    fromisoformat "2024-01-02T10:20:30" = some ⟨2024, 1, 2, 10, 20, 30, 0⟩ := by
  refine ⟨?_, ?_, ?_⟩
  · have h := claim_C7.1 ⟨"u", " hello ", false, true⟩ ⟨2024, 1, 2, 10, 20, 30, 0⟩ .ok
      (by decide) (by decide)
    simpa using h
  · have h := claim_C7.2.1 "u" " hello " ⟨2024, 1, 2, 10, 20, 30, 0⟩ .ok (by decide)
    simpa using h
  · have h := claim_C7.2.2 ⟨2024, 1, 2, 10, 20, 30, 0⟩ (by decide)
    simpa using h

/-- C8: a successfully decoded read body that is not a list degrades to an
empty history in both front-ends, with no error surfaced: the desktop worker
populates an empty table, and the web page shows only the empty-history info
banner. -/
theorem claim_C8 :
    (∀ (url tag : String),
      App.fetchWorkerEffects url (.ok (.other tag)) =
        [.httpGet url, .populateTree [], .setRefreshEnabled true] ∧
      hasShowError (App.fetchWorkerEffects url (.ok (.other tag))) = false) ∧
    (∀ tag : String,
      Streamlit.fetch_grievances (.ok (.other tag)) = .ok [] ∧
      Streamlit.historyRender (.ok (.other tag)) =
        [.showInfo "" "Nothing to complain about huh, I love u"] ∧
      hasShowError (Streamlit.historyRender (.ok (.other tag))) = false) := by
  constructor
  · intro url tag
    constructor
    · simp [App.fetchWorkerEffects, App.sortRowsDesc, sortDescBy]
    · simp [App.fetchWorkerEffects, hasShowError, App.sortRowsDesc, sortDescBy]
  · intro tag
    refine ⟨rfl, ?_, ?_⟩
    · simp [Streamlit.historyRender, Streamlit.fetch_grievances,
        Streamlit._sort_rows_desc, sortDescBy]
    · simp [Streamlit.historyRender, Streamlit.fetch_grievances,
        Streamlit._sort_rows_desc, sortDescBy, hasShowError]

theorem getField_eq_spec (r : Row) (capKey lowKey : String) :
    getField r capKey lowKey = caseTolerantLookupSpec r capKey lowKey := by
  unfold getField caseTolerantLookupSpec pyOr
  by_cases h1 : pyTruthy (rowGet r capKey) <;>
    by_cases h2 : pyTruthy (rowGet r lowKey) <;> simp [h1, h2]

/-- C9 counterexample: with `Timestamp` present but empty, the value used is
the lowercase key's (not the capitalized key's, though present); and the web
display ignores lowercase keys entirely (the desktop display honours them). -/
theorem claim_C9_counterexample :
    getField [("Timestamp", PyVal.vstr ""), ("timestamp", PyVal.vstr "2024-01-01T00:00:00")]
        "Timestamp" "timestamp" ≠
      rowGet [("Timestamp", PyVal.vstr ""), ("timestamp", PyVal.vstr "2024-01-01T00:00:00")]
        "Timestamp" ∧
    rowGet [("Timestamp", PyVal.vstr ""), ("timestamp", PyVal.vstr "2024-01-01T00:00:00")]
        "Timestamp" = PyVal.vstr "" ∧
    Streamlit.webRowGrievance [("grievance", PyVal.vstr "x")] = "" ∧
    (App.treeRowValues [("grievance", PyVal.vstr "x")]).1 = "x" := by
  decide

/-- C9 (amended): the sort keys of both front-ends and the desktop display
read each field as: the capitalized key's value when present and truthy, else
the lowercase key's value when truthy, else `""`; the web front-end's display
reads only the capitalized keys (its rendering depends on nothing else). -/
theorem claim_C9_amended :
    (∀ (r : Row) (capKey lowKey : String),
      getField r capKey lowKey = caseTolerantLookupSpec r capKey lowKey) ∧
    (∀ r : Row, App.treeRowValues r =
      (pythonStrip (pyStr (caseTolerantLookupSpec r "Grievance" "grievance")),
       pythonStrip (pyStr (caseTolerantLookupSpec r "Status" "status")))) ∧
    (∀ r1 r2 : Row, rowGet r1 "Timestamp" = rowGet r2 "Timestamp" →
      rowGet r1 "Status" = rowGet r2 "Status" →
      rowGet r1 "Grievance" = rowGet r2 "Grievance" →
      Streamlit.renderRow r1 = Streamlit.renderRow r2) := by
  refine ⟨getField_eq_spec, ?_, ?_⟩
  · intro r
    unfold App.treeRowValues
    rw [getField_eq_spec, getField_eq_spec]
  · intro r1 r2 h1 h2 h3
    simp only [Streamlit.renderRow, Streamlit.webRowTitle, Streamlit.webRowTs,
      Streamlit.webRowStatus, Streamlit.webRowGrievance, h1, h2, h3]

theorem claim_C9_witness :
    Streamlit.renderRow [("Timestamp", PyVal.vstr "2024-01-01T00:00:00"),
        ("Grievance", PyVal.vstr "hi"), ("Status", PyVal.vstr "seen")] =
      Streamlit.renderRow [("Timestamp", PyVal.vstr "2024-01-01T00:00:00"),
        ("Grievance", PyVal.vstr "hi"), ("Status", PyVal.vstr "seen"),
        ("grievance", PyVal.vstr "ignored")] :=
  claim_C9_amended.2.2
    [("Timestamp", PyVal.vstr "2024-01-01T00:00:00"),
     ("Grievance", PyVal.vstr "hi"), ("Status", PyVal.vstr "seen")]
    [("Timestamp", PyVal.vstr "2024-01-01T00:00:00"),
     ("Grievance", PyVal.vstr "hi"), ("Status", PyVal.vstr "seen"),
     ("grievance", PyVal.vstr "ignored")]
    (by decide) (by decide) (by decide)

/-- C10: the `a or b or ""` lookup treats falsy values (`None`, `False`, `0`,
`""`, absent) as missing: a falsy capitalized value falls through to the
lowercase key, and if that is falsy too the field is `""`; in particular a
record with `Timestamp=""` and a parseable lowercase `timestamp` is sorted by
the lowercase value in both front-ends. -/
theorem claim_C10 :
    (∀ r : Row, pyTruthy (rowGet r "Timestamp") = false →
      (pyTruthy (rowGet r "timestamp") = true →
        getField r "Timestamp" "timestamp" = rowGet r "timestamp") ∧
      (pyTruthy (rowGet r "timestamp") = false →
        getField r "Timestamp" "timestamp" = PyVal.vstr "")) ∧
    App.sort_key [("Timestamp", PyVal.vstr ""),
        ("timestamp", PyVal.vstr "2024-01-01T00:00:00")] = ⟨2024, 1, 1, 0, 0, 0, 0⟩ ∧
    Streamlit.parse_ts [("Timestamp", PyVal.vstr ""),
        ("timestamp", PyVal.vstr "2024-01-01T00:00:00")] = ⟨2024, 1, 1, 0, 0, 0, 0⟩ := by
  refine ⟨?_, by decide, by decide⟩
  intro r h
  constructor <;> intro h2 <;> simp [getField, pyOr, h, h2]

theorem claim_C10_witness :
    getField [("Timestamp", PyVal.vnone), ("timestamp", PyVal.vstr "x")]
        "Timestamp" "timestamp" =
      rowGet [("Timestamp", PyVal.vnone), ("timestamp", PyVal.vstr "x")] "timestamp" :=
  (claim_C10.1 [("Timestamp", PyVal.vnone), ("timestamp", PyVal.vstr "x")]
    (by decide)).1 (by decide)
